import Mathlib

/-!
Verification of `model/model_training/custom_datasets/formatting.py`
(Open-Assistant): the `DatasetEntry` record model with its pydantic
validators, the `system_tag` / `get_formatted` rendering methods, and the
legacy `format_pairs` helper.

Modelling conventions:
* Python exceptions become the `Except PyErr` monad; `PyErr` distinguishes
  the exception classes the module can raise.
* Python `None` becomes `Option.none`.
* Python floats (the `quality` / `humor` / `creativity` labels) are modelled
  as rationals `ℚ`; Python's `round(x, 1)` becomes exact rounding of the
  rational to the nearest tenth, ties to even (Python's banker's rounding).
* The in-place `shuffle` inside `system_tag` is modelled by passing the
  reordering function explicitly (`shuffleFn`); theorems about it assume only
  that it permutes its input.
* `Mode` and `Language` live in `model_training/custom_datasets/entities.py`,
  which is not part of the sources; they are modelled from the spec where
  needed (see the doc comments on `Mode` and `langStr` / `constructDatasetEntry`).
-/

/-- The Python exception classes relevant to `formatting.py`:
`ValueError` (raised by validators and by the question/answer walk),
`TypeError` (raised by `round(None, 1)`), `IndexError` (raised by
`self.questions[0]` on an empty list), `NotImplementedError`, and pydantic's
`ValidationError` that wraps validator failures at construction time. -/
inductive PyErr where
  | valueError
  | typeError
  | indexError
  | notImplementedError
  | validationError
deriving DecidableEq

/-- Modelled from the spec: the `Mode` enumeration from `entities.py` (not in
the sources) — `ReinforcementLearning` (`rl`), `SupervisedFineTuning` (`sft`),
`RewardModel` (`rm`). -/
inductive Mode where
  | rl
  | sft
  | rm
deriving DecidableEq

/-- `get_formatted` returns either a single string (`rl` mode) or a list of
strings (`sft` mode). -/
inductive FormattedOutput where
  | str (s : String)
  | list (l : List String)
deriving DecidableEq

/-- The `DatasetEntry` pydantic model's stored fields. `lang` holds the
member identifier of the `Language` enum (`entities.py` is not in the
sources); the three label fields are Python floats, modelled as `ℚ`. -/
structure DatasetEntry where
  questions : List String
  answers : List String
  context : Option String
  lang : Option String
  length : Option Int
  quality : Option ℚ
  humor : Option ℚ
  creativity : Option ℚ
deriving DecidableEq

/-- `QA_SPECIAL_TOKENS["Question"]`. -/
def qaQuestion : String := "<|prompter|>"

/-- `QA_SPECIAL_TOKENS["Answer"]`. -/
def qaAnswer : String := "<|assistant|>"

/-- `QA_SPECIAL_TOKENS["System"]`. -/
def qaSystem : String := "<|system|>"

/-- Python's `str.replace("\n", "")`: since the pattern is the single
character `'\n'`, replacing it by the empty string removes every newline. -/
def stripNewline (s : String) : String :=
  String.mk (s.data.filter (fun c => c ≠ '\n'))

/-- Modelled from the spec: the string form `str(v)` of a `Language` enum
member (`entities.py` is not in the sources). Python's default enum `str` is
`"Language.<member>"`; only its non-blankness matters to the claims. -/
def langStr (code : String) : String := "Language." ++ code

/-- The string form `str(v)` of a label float. The exact digits of Python's
float repr are immaterial to every claim (only non-blankness matters), so the
rational's own rendering stands in for it. -/
def ratStr (x : ℚ) : String := toString x

/-- The string form `str(v)` of the `length` field. -/
def intStr (n : Int) : String := toString n

/-- One metadata field's contribution to `relevant_system_infos`: the pair
`(k, str(v))` is kept iff `v is not None` and `str(v).replace("\n", "")` is
truthy (non-empty). The pair stores the string form, which is what the
f-string `f"{k}: {v}"` renders. -/
def optEntry (k : String) (v : Option String) : List (String × String) :=
  match v with
  | some s => if stripNewline s ≠ "" then [(k, s)] else []
  | none => []

/-- `relevant_system_infos` before the shuffle: the comprehension over
`self.__dict__.items()` in field-declaration order (questions, answers,
context, lang, length, quality, humor, creativity), skipping
`questions`/`answers` and dropping `None` or blank-after-newline-strip
values. -/
def metadataItems (e : DatasetEntry) : List (String × String) :=
  optEntry "context" e.context
    ++ optEntry "lang" (e.lang.map langStr)
    ++ optEntry "length" (e.length.map intStr)
    ++ optEntry "quality" (e.quality.map ratStr)
    ++ optEntry "humor" (e.humor.map ratStr)
    ++ optEntry "creativity" (e.creativity.map ratStr)

/-- Renders one collected pair as the f-string `f"{k}: {v}"`. -/
def renderKV (kv : String × String) : String := kv.1 ++ ": " ++ kv.2

/-- `DatasetEntry.system_tag`: collect `relevant_system_infos`; if non-empty,
shuffle them (modelled by `shuffleFn`), join the rendered `"k: v"` lines with
newlines, and wrap as `<|system|>` + lines + `"\n"` + eos; otherwise the
Python method falls through and returns `None`. -/
def system_tag (shuffleFn : List (String × String) → List (String × String))
    (e : DatasetEntry) (eos_token : String) : Option String :=
  let relevant_system_infos := metadataItems e
  if relevant_system_infos.length > 0 then
    let system_tag_key_values :=
      String.intercalate "\n" ((shuffleFn relevant_system_infos).map renderKV)
    some (qaSystem ++ system_tag_key_values ++ "\n" ++ eos_token)
  else
    none

/-- The `for q, a in zip_longest(self.questions, self.answers)` loop of
`get_formatted`. `zip_longest` pads the shorter list with `None`, so the four
match cases become: both present → append tagged question and tagged answer;
question only → append tagged question and continue (the Python code does not
`break` here); both lists exhausted → the loop ends (the `(None, None)` case
never fires for `list[str]` fields, the loop simply runs out); answer without
question → `raise ValueError(...)`. -/
def qaWalk (questions answers : List String) (eos_token : String) :
    Except PyErr (List String) :=
  match questions, answers with
  | q :: qs, a :: as' =>
      (qaWalk qs as' eos_token).map
        (fun rest =>
          (qaQuestion ++ q ++ eos_token) :: (qaAnswer ++ a ++ eos_token) :: rest)
  | q :: qs, [] =>
      (qaWalk qs [] eos_token).map
        (fun rest => (qaQuestion ++ q ++ eos_token) :: rest)
  | [], [] => Except.ok []
  | [], _ :: _ => Except.error PyErr.valueError

/-- `DatasetEntry.get_formatted`: computes the system tag, then branches on
the mode. `rl` returns a single string built from `self.questions[0]`
(raising `IndexError` when `questions` is empty); `sft` runs the
question/answer walk and prepends the system tag when present; `rm` runs the
same walk (which may raise) and then unconditionally raises
`NotImplementedError`. -/
def get_formatted (shuffleFn : List (String × String) → List (String × String))
    (e : DatasetEntry) (mode : Mode) (eos_token : String) :
    Except PyErr FormattedOutput :=
  let st := system_tag shuffleFn e eos_token
  match mode with
  | Mode.rl =>
      match e.questions with
      | [] => Except.error PyErr.indexError
      | q0 :: _ =>
          match st with
          | some s => Except.ok (FormattedOutput.str (s ++ qaQuestion ++ q0 ++ qaAnswer))
          | none => Except.ok (FormattedOutput.str (qaQuestion ++ q0 ++ qaAnswer))
  | Mode.sft => do
      let qa ← qaWalk e.questions e.answers eos_token
      match st with
      | some s => Except.ok (FormattedOutput.list (s :: qa))
      | none => Except.ok (FormattedOutput.list qa)
  | Mode.rm => do
      let _ ← qaWalk e.questions e.answers eos_token
      Except.error PyErr.notImplementedError

/-- `round(10 * x)` as an integer, on the exact rational value `x = n / d`:
the nearest integer to `10n / d`, ties to even (Python's banker's rounding),
computed with integer arithmetic on the numerator and denominator
(`f = ⌊10n / d⌋` via Euclidean division — the denominator is positive — and
the fractional part compared to one half via `2 * (10n - f * d)` against
`d`). -/
def pyRound1Int (x : ℚ) : Int :=
  let n10 := 10 * x.num
  let d := (x.den : Int)
  let f := Int.ediv n10 d
  let twiceRem := 2 * (n10 - f * d)
  if twiceRem < d then f
  else if d < twiceRem then f + 1
  else if f % 2 = 0 then f else f + 1

/-- Python's `round(x, 1)` on the exact rational value: round to the nearest
tenth, ties to even. (Stands in for rounding of the IEEE double; the claims
do not depend on binary-representation corner cases.) -/
def round1 (x : ℚ) : ℚ := Rat.divInt (pyRound1Int x) 10

/-- The `above_zero` validator on `length`:
`if v is not None and v < 0: raise ValueError(...); return v`. -/
def above_zero (v : Option Int) : Except PyErr (Option Int) :=
  match v with
  | some n => if n < 0 then Except.error PyErr.valueError else Except.ok (some n)
  | none => Except.ok none

/-- The `between_0_1` validator on `quality` / `humor` / `creativity`:
`if v is not None and not (0 <= v <= 1): raise ValueError(...)`, then
`return round(v, 1)` **unconditionally** — so when the validator receives
`None` (an explicitly supplied `None` value), `round(None, 1)` raises
`TypeError`, despite the guard on the line above. -/
def between_0_1 (v : Option ℚ) : Except PyErr (Option ℚ) :=
  match v with
  | some x =>
      if ¬(0 ≤ x ∧ x ≤ 1) then Except.error PyErr.valueError
      else Except.ok (some (round1 x))
  | none => Except.error PyErr.typeError

/-- pydantic's validation of the `lang` field against the `Language` enum.
Modelled from the spec: `Language` (`entities.py` is not in the sources) is a
closed set of supported identifiers, passed here as the list `supported`;
a value outside the set fails validation. -/
def validateLang (supported : List String) (v : Option String) :
    Except PyErr (Option String) :=
  match v with
  | some s => if s ∈ supported then Except.ok (some s) else Except.error PyErr.valueError
  | none => Except.ok none

/-- pydantic v1 runs a field's validators only when the field is supplied;
`none` here models an omitted field (pydantic uses the default `None` and
skips the validator), `some x` a supplied value (the validator runs on it). -/
def runValidator {α : Type} (validate : Option α → Except PyErr (Option α))
    (v : Option α) : Except PyErr (Option α) :=
  match v with
  | none => Except.ok none
  | some x => validate (some x)

/-- Any exception escaping a validator (`ValueError` / `TypeError`) is
wrapped by pydantic into a `ValidationError` reported to the caller. -/
def wrapValidation (r : Except PyErr DatasetEntry) : Except PyErr DatasetEntry :=
  match r with
  | Except.ok e => Except.ok e
  | Except.error _ => Except.error PyErr.validationError

/-- `DatasetEntry(...)` construction under pydantic v1: validate the fields
in declaration order (`lang` against the `Language` enum, `length` through
`above_zero`, the three labels through `between_0_1`), skipping validators of
omitted fields, and wrap any validator exception into `ValidationError`. -/
def constructDatasetEntry (supported : List String)
    (questions answers : List String) (context : Option String)
    (lang : Option String) (length : Option Int)
    (quality humor creativity : Option ℚ) : Except PyErr DatasetEntry :=
  wrapValidation (do
    let l ← validateLang supported lang
    let len ← runValidator above_zero length
    let q ← runValidator between_0_1 quality
    let h ← runValidator between_0_1 humor
    let c ← runValidator between_0_1 creativity
    Except.ok ⟨questions, answers, context, l, len, q, h, c⟩)

/-- `DatasetEntry.create_from_prompter_assistant_interplay`: the body is the
expression statement `NotImplementedError("Function not implemented
currently.")`, which *constructs* the exception object and discards it
without `raise`, then falls off the end of the function — so the call returns
`None` normally instead of raising. -/
def create_from_prompter_assistant_interplay (qa : List (String × String)) :
    Except PyErr (Option DatasetEntry) :=
  let _unraised := PyErr.notImplementedError
  Except.ok none

/-- `format_pairs`, legacy flat-list path (the `DatasetEntry` branch
delegates to `get_formatted` and is covered by the theorems about it):
builds `conversations` by the comprehension over `range(len(pairs))`, tagging
even indices with `Question` and odd ones with `Answer`, each suffixed with
the eos token, then appends a bare `Answer` tag when
`add_initial_reply_token` is truthy. (`pairs.getD i ""` models `pairs[i]`;
`i` always lies in range here.) -/
def format_pairs (pairs : List String) (eos_token : String)
    (add_initial_reply_token : Bool) : List String :=
  let conversations :=
    (List.range pairs.length).map
      (fun i =>
        (if i % 2 = 0 then qaQuestion else qaAnswer) ++ pairs.getD i "" ++ eos_token)
  if add_initial_reply_token then conversations ++ [qaAnswer] else conversations

/-- Modelled from the spec's words (refinement target for the legacy
`format_pairs` path): one output per input element in order, even index =
`Question` tag, odd index = `Answer` tag, each suffixed with the eos marker;
when the flag is set, one extra trailing element that is exactly the `Answer`
tag with no eos. -/
def formatPairsSpec (pairs : List String) (eos_token : String)
    (add_initial_reply_token : Bool) : List String :=
  (pairs.enum.map
      (fun p => (if p.1 % 2 = 0 then qaQuestion else qaAnswer) ++ p.2 ++ eos_token))
    ++ (if add_initial_reply_token then [qaAnswer] else [])

deriving instance DecidableEq for Except

/-- When the answers outnumber the questions, the question/answer walk
reaches a position holding an answer with no question and raises
`ValueError`. -/
lemma qaWalk_error_of_lt (eos_token : String) :
    ∀ (questions answers : List String), questions.length < answers.length →
      qaWalk questions answers eos_token = Except.error PyErr.valueError := by
  intro questions
  induction questions with
  | nil =>
      intro answers h
      match answers with
      | [] => simp at h
      | a :: as' => rfl
  | cons q qs ih =>
      intro answers h
      match answers with
      | [] => simp at h
      | a :: as' =>
          have h' : qs.length < as'.length := by simpa using h
          simp [qaWalk, ih as' h', Except.map]

/-- When the questions are at least as numerous as the answers, the
question/answer walk succeeds and returns the interleaved tagged pairs
followed by **all** remaining questions, each question-tagged — the walk does
not stop at the first unanswered question. -/
lemma qaWalk_ok_of_le (eos_token : String) :
    ∀ (questions answers : List String), answers.length ≤ questions.length →
      qaWalk questions answers eos_token
        = Except.ok
            ((questions.zip answers).flatMap
                (fun p => [qaQuestion ++ p.1 ++ eos_token, qaAnswer ++ p.2 ++ eos_token])
              ++ (questions.drop answers.length).map
                  (fun q => qaQuestion ++ q ++ eos_token)) := by
  intro questions
  induction questions with
  | nil =>
      intro answers h
      match answers with
      | [] => rfl
      | a :: as' => simp at h
  | cons q qs ih =>
      intro answers h
      match answers with
      | [] =>
          simp [qaWalk, ih [] (by simp), Except.map]
      | a :: as' =>
          have h' : as'.length ≤ qs.length := by simpa using h
          simp [qaWalk, ih as' h', Except.map]

/-- `relevant_system_infos` is empty exactly when every metadata field is
`None` or blank after stripping newlines from its string form. -/
lemma metadataItems_eq_nil_iff (e : DatasetEntry) :
    metadataItems e = []
      ↔ ((∀ s ∈ e.context, stripNewline s = "")
          ∧ (∀ s ∈ e.lang, stripNewline (langStr s) = "")
          ∧ (∀ n ∈ e.length, stripNewline (intStr n) = "")
          ∧ (∀ x ∈ e.quality, stripNewline (ratStr x) = "")
          ∧ (∀ x ∈ e.humor, stripNewline (ratStr x) = "")
          ∧ (∀ x ∈ e.creativity, stripNewline (ratStr x) = "")) := by
  obtain ⟨qs, as', c, l, n, q, h, cr⟩ := e
  simp only [metadataItems, optEntry, List.append_eq_nil]
  cases c <;> cases l <;> cases n <;> cases q <;> cases h <;> cases cr <;>
    simp <;> tauto

/-- Each metadata field contributes its key at most once. -/
lemma optEntry_fst_sublist (k : String) (v : Option String) :
    ((optEntry k v).map Prod.fst).Sublist [k] := by
  cases v with
  | none => simp [optEntry]
  | some s =>
      by_cases hb : stripNewline s ≠ "" <;> simp [optEntry, hb]

/-- The keys of `relevant_system_infos` form a sublist of the six distinct
metadata field names, hence contain no duplicates: every set field appears
exactly once. -/
lemma metadataItems_keys_nodup (e : DatasetEntry) :
    ((metadataItems e).map Prod.fst).Nodup := by
  have hsub : ((metadataItems e).map Prod.fst).Sublist
      ["context", "lang", "length", "quality", "humor", "creativity"] := by
    simp only [metadataItems, List.map_append]
    have h1 := optEntry_fst_sublist "context" e.context
    have h2 := optEntry_fst_sublist "lang" (e.lang.map langStr)
    have h3 := optEntry_fst_sublist "length" (e.length.map intStr)
    have h4 := optEntry_fst_sublist "quality" (e.quality.map ratStr)
    have h5 := optEntry_fst_sublist "humor" (e.humor.map ratStr)
    have h6 := optEntry_fst_sublist "creativity" (e.creativity.map ratStr)
    exact ((((h1.append h2).append h3).append h4).append h5).append h6
  exact List.Nodup.sublist hsub (by decide)

/-- Claim C1, counterexample: with questions = ["Q1", "Q2"] and no answers,
SFT rendering returns BOTH question-tagged elements — the walk does not stop
after appending the first unanswered question, so the output holds two
unanswered trailing questions, not at most one. -/
theorem sft_two_trailing_questions_counterexample :
    get_formatted id ⟨["Q1", "Q2"], [], none, none, none, none, none, none⟩
        Mode.sft "E"
      = Except.ok (FormattedOutput.list ["<|prompter|>Q1E", "<|prompter|>Q2E"])
    ∧ FormattedOutput.list ["<|prompter|>Q1E", "<|prompter|>Q2E"]
        ≠ FormattedOutput.list ["<|prompter|>Q1E"] := by
  constructor
  · decide
  · decide

/-- Claim C1, amended: in SFT mode, when only a question is present at a
position the walk appends the question-tagged element and **continues**;
whenever the answers do not outnumber the questions, the render succeeds and
its output is the optional system tag, the interleaved tagged pairs, and then
ALL trailing questions, each tagged and eos-suffixed. -/
theorem sft_appends_all_trailing_questions
    (shuffleFn : List (String × String) → List (String × String))
    (e : DatasetEntry) (eos_token : String)
    (h : e.answers.length ≤ e.questions.length) :
    get_formatted shuffleFn e Mode.sft eos_token
      = Except.ok (FormattedOutput.list
          ((system_tag shuffleFn e eos_token).toList
            ++ (e.questions.zip e.answers).flatMap
                (fun p => [qaQuestion ++ p.1 ++ eos_token, qaAnswer ++ p.2 ++ eos_token])
            ++ (e.questions.drop e.answers.length).map
                (fun q => qaQuestion ++ q ++ eos_token))) := by
  have hw := qaWalk_ok_of_le eos_token e.questions e.answers h
  cases hst : system_tag shuffleFn e eos_token <;>
    simp [get_formatted, hw, hst, Bind.bind, Except.bind, Option.toList]

/-- Claim C1, witness for the amended theorem: questions = ["Q1", "Q2", "Q3"]
with one answer yields the pair followed by both trailing questions. -/
theorem sft_appends_all_trailing_questions_witness :
    (["A1"] : List String).length ≤ (["Q1", "Q2", "Q3"] : List String).length
    ∧ get_formatted id ⟨["Q1", "Q2", "Q3"], ["A1"], none, none, none, none, none, none⟩
        Mode.sft "E"
      = Except.ok (FormattedOutput.list
          ["<|prompter|>Q1E", "<|assistant|>A1E", "<|prompter|>Q2E", "<|prompter|>Q3E"]) := by
  refine ⟨by decide, ?_⟩
  have h := sft_appends_all_trailing_questions id
    ⟨["Q1", "Q2", "Q3"], ["A1"], none, none, none, none, none, none⟩ "E" (by decide)
  rw [h]
  decide

/-- Claim C3, counterexample: in RewardModel mode with answers outnumbering
questions, the question/answer walk raises ValueError before the
NotImplementedError line is reached — the render does not fail with
NotImplemented on every input. -/
theorem rm_structural_error_counterexample :
    get_formatted id ⟨[], ["A1"], none, none, none, none, none, none⟩ Mode.rm "E"
      = Except.error PyErr.valueError
    ∧ (Except.error PyErr.valueError : Except PyErr FormattedOutput)
        ≠ Except.error PyErr.notImplementedError := by
  constructor
  · decide
  · decide

/-- Claim C3, amended: RewardModel mode fails with NotImplemented whenever
the question/answer walk itself succeeds, i.e. whenever the answers do not
outnumber the questions; when they do, it fails with the structural
ValueError instead. -/
theorem rm_not_implemented_when_walk_succeeds
    (shuffleFn : List (String × String) → List (String × String))
    (e : DatasetEntry) (eos_token : String)
    (h : e.answers.length ≤ e.questions.length) :
    get_formatted shuffleFn e Mode.rm eos_token
      = Except.error PyErr.notImplementedError := by
  have hw := qaWalk_ok_of_le eos_token e.questions e.answers h
  simp [get_formatted, hw, Bind.bind, Except.bind]

/-- Claim C3, witness for the amended theorem. -/
theorem rm_not_implemented_when_walk_succeeds_witness :
    (["A1"] : List String).length ≤ (["Q1"] : List String).length
    ∧ get_formatted id ⟨["Q1"], ["A1"], none, none, none, none, none, none⟩ Mode.rm "E"
      = Except.error PyErr.notImplementedError :=
  ⟨by decide,
    rm_not_implemented_when_walk_succeeds id
      ⟨["Q1"], ["A1"], none, none, none, none, none, none⟩ "E" (by decide)⟩

/-- Claim C6: in SFT mode, whenever the answers outnumber the questions the
walk reaches an answer with no corresponding question and the whole render
fails with the structural ValueError — no partial sequence is returned. -/
theorem sft_answer_without_question_error
    (shuffleFn : List (String × String) → List (String × String))
    (e : DatasetEntry) (eos_token : String)
    (h : e.questions.length < e.answers.length) :
    get_formatted shuffleFn e Mode.sft eos_token = Except.error PyErr.valueError := by
  have hw := qaWalk_error_of_lt eos_token e.questions e.answers h
  simp [get_formatted, hw, Bind.bind, Except.bind]

/-- Claim C6, witness: questions = ["Q1"], answers = ["A1", "A2"] fails with
the structural ValueError. -/
theorem sft_answer_without_question_error_witness :
    (["Q1"] : List String).length < (["A1", "A2"] : List String).length
    ∧ get_formatted id ⟨["Q1"], ["A1", "A2"], none, none, none, none, none, none⟩
        Mode.sft "E"
      = Except.error PyErr.valueError :=
  ⟨by decide,
    sft_answer_without_question_error id
      ⟨["Q1"], ["A1", "A2"], none, none, none, none, none, none⟩ "E" (by decide)⟩

/-- Claim C7: in RL mode with non-empty questions, the render returns the
single string made of the system tag when present (empty otherwise), the
Question marker, the first question only, and the Answer marker — no eos
appended, later questions and all answers ignored. -/
theorem rl_first_question_only
    (shuffleFn : List (String × String) → List (String × String))
    (e : DatasetEntry) (eos_token : String) (q0 : String) (qs : List String)
    (h : e.questions = q0 :: qs) :
    get_formatted shuffleFn e Mode.rl eos_token
      = Except.ok (FormattedOutput.str
          ((system_tag shuffleFn e eos_token).getD "" ++ qaQuestion ++ q0 ++ qaAnswer)) := by
  have hemp : ("" : String) ++ qaQuestion = qaQuestion := by decide
  cases hst : system_tag shuffleFn e eos_token <;>
    simp [get_formatted, h, hst, Option.getD, hemp]

/-- Claim C7, witness: the spec's concrete example — questions =
["Q1", "Q2"], no answers, no metadata — renders to exactly
tag(Question) + "Q1" + tag(Answer). -/
theorem rl_first_question_only_witness :
    (⟨["Q1", "Q2"], [], none, none, none, none, none, none⟩ : DatasetEntry).questions
        = "Q1" :: ["Q2"]
    ∧ get_formatted id ⟨["Q1", "Q2"], [], none, none, none, none, none, none⟩
        Mode.rl "E"
      = Except.ok (FormattedOutput.str ("<|prompter|>" ++ "Q1" ++ "<|assistant|>")) := by
  refine ⟨rfl, ?_⟩
  have h := rl_first_question_only id
    ⟨["Q1", "Q2"], [], none, none, none, none, none, none⟩ "E" "Q1" ["Q2"] rfl
  rw [h]
  decide

/-- Claim C10: in RL mode with an empty questions list, get_formatted indexes
questions[0] out of range and fails with IndexError instead of returning a
string — a non-emptiness precondition the spec leaves unstated. -/
theorem rl_empty_questions_index_error
    (shuffleFn : List (String × String) → List (String × String))
    (e : DatasetEntry) (eos_token : String) (h : e.questions = []) :
    get_formatted shuffleFn e Mode.rl eos_token = Except.error PyErr.indexError := by
  simp [get_formatted, h]

/-- Claim C10, witness: an entry with no questions (and some metadata, which
does not rescue the render) hits the IndexError. -/
theorem rl_empty_questions_index_error_witness :
    (⟨[], [], some "ctx", none, none, none, none, none⟩ : DatasetEntry).questions = []
    ∧ get_formatted id ⟨[], [], some "ctx", none, none, none, none, none⟩ Mode.rl "E"
      = Except.error PyErr.indexError :=
  ⟨rfl,
    rl_empty_questions_index_error id
      ⟨[], [], some "ctx", none, none, none, none, none⟩ "E" rfl⟩

/-- Claim C2: the alternate constructor stub only *constructs* a
NotImplementedError object without raising it, so for every input the call
returns normally with Python's implicit None instead of raising. -/
theorem interplay_returns_none_normally :
    (∀ qa : List (String × String),
        create_from_prompter_assistant_interplay qa = Except.ok none)
    ∧ create_from_prompter_assistant_interplay [("prompter", "hi")]
        ≠ Except.error PyErr.notImplementedError := by
  exact ⟨fun qa => rfl, by decide⟩

/-- Claim C4: the between_0_1 validator applies round(v, 1) unconditionally,
so when it receives None (an explicitly supplied None for quality, humor or
creativity) it raises TypeError — which pydantic wraps into a
ValidationError — instead of letting the absent value through. -/
theorem between_0_1_none_raises_type_error :
    between_0_1 none = Except.error PyErr.typeError
    ∧ between_0_1 none ≠ Except.ok none := by
  exact ⟨rfl, by decide⟩

/-- Claim C9: the legacy flat-list path of format_pairs agrees with the
spec's description — one output per input element in order, Question tag on
even indices, Answer tag on odd indices, each eos-suffixed, plus one bare
trailing Answer tag when the flag is set (formatPairsSpec is that
description, written from the spec's words). -/
theorem format_pairs_eq_spec (pairs : List String) (eos_token : String)
    (add_initial_reply_token : Bool) :
    format_pairs pairs eos_token add_initial_reply_token
      = formatPairsSpec pairs eos_token add_initial_reply_token := by
  have core : (List.range pairs.length).map
      (fun i =>
        (if i % 2 = 0 then qaQuestion else qaAnswer) ++ pairs.getD i "" ++ eos_token)
      = pairs.enum.map
          (fun p => (if p.1 % 2 = 0 then qaQuestion else qaAnswer) ++ p.2 ++ eos_token) := by
    apply List.ext_getElem
    · simp
    · intro i h1 h2
      have hi : i < pairs.length := by simpa using h1
      simp only [List.getElem_map, List.getElem_range, List.getElem_enum]
      rw [List.getD_eq_getElem pairs "" hi]
  unfold format_pairs formatPairsSpec
  rw [core]
  cases add_initial_reply_token <;> simp

/-- Claim C8: system_tag returns None exactly when every metadata field other
than questions/answers is None or blank after stripping newlines from its
string form; any returned block is the System marker, the rendered
"field: value" lines joined by newlines, a newline, and the eos marker; for
any permutation the shuffle produces, the collected pairs are a permutation
of the canonical (unshuffled) collection — so the set of lines is invariant
across calls — and the field keys are duplicate-free, so every set field
contributes its line exactly once. -/
theorem system_tag_spec
    (shuffleFn : List (String × String) → List (String × String))
    (e : DatasetEntry) (eos_token : String)
    (hp : ∀ l : List (String × String), (shuffleFn l).Perm l) :
    (system_tag shuffleFn e eos_token = none
      ↔ ((∀ s ∈ e.context, stripNewline s = "")
          ∧ (∀ s ∈ e.lang, stripNewline (langStr s) = "")
          ∧ (∀ n ∈ e.length, stripNewline (intStr n) = "")
          ∧ (∀ x ∈ e.quality, stripNewline (ratStr x) = "")
          ∧ (∀ x ∈ e.humor, stripNewline (ratStr x) = "")
          ∧ (∀ x ∈ e.creativity, stripNewline (ratStr x) = "")))
    ∧ (∀ s, system_tag shuffleFn e eos_token = some s →
        s = qaSystem
          ++ String.intercalate "\n" ((shuffleFn (metadataItems e)).map renderKV)
          ++ "\n" ++ eos_token)
    ∧ (shuffleFn (metadataItems e)).Perm (metadataItems e)
    ∧ ((metadataItems e).map Prod.fst).Nodup := by
  refine ⟨?_, ?_, hp (metadataItems e), metadataItems_keys_nodup e⟩
  · rw [← metadataItems_eq_nil_iff e]
    unfold system_tag
    by_cases hlen : (metadataItems e).length > 0
    · simp only [hlen, if_true]
      constructor
      · intro hcon; exact absurd hcon (by simp)
      · intro hnil; rw [hnil] at hlen; simp at hlen
    · simp only [hlen, if_false]
      have : metadataItems e = [] := by
        cases hme : metadataItems e with
        | nil => rfl
        | cons a l => rw [hme] at hlen; simp at hlen
      simp [this]
  · intro s hs
    unfold system_tag at hs
    by_cases hlen : (metadataItems e).length > 0
    · simp only [hlen, if_true, Option.some.injEq] at hs
      exact hs.symm
    · simp [hlen] at hs

lemma except_bind_ok {eps a b : Type} (x : a) (f : a → Except eps b) :
    Bind.bind (Except.ok x) f = f x := rfl

lemma except_bind_error {eps a b : Type} (e : eps) (f : a → Except eps b) :
    (Bind.bind (Except.error e) f : Except eps b) = Except.error e := rfl

/-- The lang validation succeeds (returning the value unchanged) iff a
supplied value belongs to the supported set. -/
lemma validateLang_eq (supported : List String) (v : Option String) :
    validateLang supported v
      = if ∀ s ∈ v, s ∈ supported then Except.ok v else Except.error PyErr.valueError := by
  cases v with
  | none => simp [validateLang]
  | some s =>
      by_cases h : s ∈ supported <;> simp [validateLang, h]

/-- The above_zero validator (run only on supplied values) succeeds iff a
supplied length is non-negative, returning the value unchanged. -/
lemma runValidator_above_zero (v : Option Int) :
    runValidator above_zero v
      = if ∀ n ∈ v, 0 ≤ n then Except.ok v else Except.error PyErr.valueError := by
  cases v with
  | none => simp [runValidator]
  | some n =>
      by_cases h : 0 ≤ n <;>
        simp [runValidator, above_zero, h]

/-- The between_0_1 validator (run only on supplied values) succeeds iff a
supplied label lies in [0, 1], returning it rounded to one decimal. -/
lemma runValidator_between_0_1 (v : Option ℚ) :
    runValidator between_0_1 v
      = if ∀ x ∈ v, 0 ≤ x ∧ x ≤ 1 then Except.ok (v.map round1)
        else Except.error PyErr.valueError := by
  cases v with
  | none => simp [runValidator]
  | some x =>
      by_cases h : 0 ≤ x ∧ x ≤ 1 <;> simp [runValidator, between_0_1, h]

/-- Claim C5: construction succeeds — storing each supplied label rounded to
one decimal and the other fields unchanged — exactly when every supplied
length is non-negative, every supplied label lies in [0, 1] and a supplied
lang belongs to the supported language set; in every other case it fails
with the ValidationError. -/
theorem construct_validation_spec (supported : List String)
    (questions answers : List String) (context : Option String)
    (lang : Option String) (length : Option Int)
    (quality humor creativity : Option ℚ) :
    (constructDatasetEntry supported questions answers context lang length
          quality humor creativity
        = Except.ok ⟨questions, answers, context, lang, length,
            quality.map round1, humor.map round1, creativity.map round1⟩
      ↔ ((∀ n ∈ length, 0 ≤ n)
          ∧ (∀ x ∈ quality, 0 ≤ x ∧ x ≤ 1)
          ∧ (∀ x ∈ humor, 0 ≤ x ∧ x ≤ 1)
          ∧ (∀ x ∈ creativity, 0 ≤ x ∧ x ≤ 1)
          ∧ (∀ s ∈ lang, s ∈ supported)))
    ∧ (¬((∀ n ∈ length, 0 ≤ n)
          ∧ (∀ x ∈ quality, 0 ≤ x ∧ x ≤ 1)
          ∧ (∀ x ∈ humor, 0 ≤ x ∧ x ≤ 1)
          ∧ (∀ x ∈ creativity, 0 ≤ x ∧ x ≤ 1)
          ∧ (∀ s ∈ lang, s ∈ supported))
        → constructDatasetEntry supported questions answers context lang length
              quality humor creativity
            = Except.error PyErr.validationError) := by
  unfold constructDatasetEntry
  rw [validateLang_eq, runValidator_above_zero, runValidator_between_0_1,
    runValidator_between_0_1, runValidator_between_0_1]
  split_ifs <;>
    simp_all only [except_bind_ok, except_bind_error, wrapValidation,
      Except.ok.injEq, DatasetEntry.mk.injEq, not_true_eq_false, not_false_eq_true,
      and_true, true_and, and_false, false_and, iff_true, iff_false, true_iff, false_iff,
      implies_true, forall_true_left, reduceCtorEq, ne_eq, and_self, and_imp]

/-- Claim C5, witness: a fully valid entry is stored with the label 0.25
quantized to 0.2, and a negative length fails with the ValidationError. -/
theorem construct_validation_spec_witness :
    constructDatasetEntry ["en"] ["Q"] [] none (some "en") (some 3)
        (some (mkRat 1 4)) none none
      = Except.ok ⟨["Q"], [], none, some "en", some 3, some (mkRat 1 5), none, none⟩
    ∧ constructDatasetEntry ["en"] [] [] none none (some (-1)) none none none
      = Except.error PyErr.validationError := by
  constructor
  · have h := (construct_validation_spec ["en"] ["Q"] [] none (some "en") (some 3)
      (some (mkRat 1 4)) none none).1.mpr (by decide)
    exact h.trans (by decide)
  · exact (construct_validation_spec ["en"] [] [] none none (some (-1))
      none none none).2 (by decide)

/-- Claim C8, witness: with context and length set, the system tag (with the
identity permutation) is non-absent. -/
theorem system_tag_spec_witness :
    (∀ l : List (String × String), (id l).Perm l)
    ∧ system_tag id ⟨[], [], some "ctx", none, some 5, none, none, none⟩ "E" ≠ none := by
  refine ⟨fun l => List.Perm.refl l, ?_⟩
  intro hn
  have h := (system_tag_spec id ⟨[], [], some "ctx", none, some 5, none, none, none⟩ "E"
    (fun l => List.Perm.refl l)).1
  have hc := (h.mp hn).1 "ctx" rfl
  exact absurd hc (by decide)
